import Mathlib

/-!
Verification of the kometa-overseerr-bridge shim (src/app/app.py) against its
natural-language specification.  The Python code is shallowly embedded: JSON
values become an inductive `Json` type, Python truthiness and `or` become
explicit functions, network I/O becomes an explicit response argument (an
`Except String HttpResp`, whose `error` case models a transport failure), and
Python exceptions become `Except PyErr` results.  Outbound HTTP calls are
counted explicitly where a claim speaks about the number of network calls.
-/

set_option maxRecDepth 4000
set_option linter.unusedVariables false

/-- JSON values as produced by `request.json()` / `r.json()` in the source.
Python dicts are modelled as association lists; real Python dicts have unique
keys (json parsing deduplicates), so first-match lookup is faithful. -/
inductive Json where
  | null
  | bool (b : Bool)
  | int (n : Int)
  | str (s : String)
  | arr (xs : List Json)
  | obj (fields : List (String × Json))

/-- First-match association-list lookup, the model of Python `dict[k]` /
`dict.get(k)` on the (unique-key) dicts appearing in the source. -/
def lookupKey : List (String × Json) → String → Option Json
  | [], _ => none
  | p :: rest, k => if p.1 = k then some p.2 else lookupKey rest k

/-- Python `d.get(k)`: `None` (here `Json.null`) when the key is absent.
Only ever applied to dicts in the source (guarded by `isinstance` checks). -/
def Json.get (j : Json) (k : String) : Json :=
  match j with
  | .obj fs => (lookupKey fs k).getD .null
  | _ => .null

/-- Python `d.get(k, default)`: the stored value (even `None`) when the key is
present, the default otherwise. -/
def Json.getD (j : Json) (k : String) (d : Json) : Json :=
  match j with
  | .obj fs => (lookupKey fs k).getD d
  | _ => d

/-- Python truthiness of a JSON value. -/
def Json.truthy : Json → Bool
  | .null => false
  | .bool b => b
  | .int n => n != 0
  | .str s => s != ""
  | .arr xs => !xs.isEmpty
  | .obj fs => !fs.isEmpty

/-- Python `a is None` for a JSON value. -/
def Json.isNull : Json → Bool
  | .null => true
  | _ => false

/-- Python `a or b` on JSON values: the first operand when truthy, else the
second. -/
def pyOrJson (a b : Json) : Json := if a.truthy then a else b

/-- Decimal digits to a number; `none` when empty or a non-digit appears. -/
def digitsVal (cs : List Char) : Option Nat :=
  match cs with
  | [] => none
  | _ =>
    cs.foldl
      (fun acc c =>
        match acc with
        | none => none
        | some n => if c.isDigit then some (n * 10 + (c.toNat - 48)) else none)
      (some 0)

/-- ASCII whitespace, for the stripping `int()` performs. -/
def isSpaceChar (c : Char) : Bool :=
  c = ' ' || c = '\t' || c = '\n' || c = '\r'

/-- Strip leading and trailing whitespace from a character list. -/
def trimChars (cs : List Char) : List Char :=
  ((cs.dropWhile isSpaceChar).reverse.dropWhile isSpaceChar).reverse

/-- Python `int(s)` on a string: surrounding whitespace stripped, optional
sign, then decimal digits; `none` models the `ValueError` raise. -/
def pyIntOfString (s : String) : Option Int :=
  let cs := trimChars s.toList
  match cs with
  | '-' :: rest => (digitsVal rest).map (fun n => -(n : Int))
  | '+' :: rest => (digitsVal rest).map (fun n => (n : Int))
  | _ => (digitsVal cs).map (fun n => (n : Int))

/-- Python `int(x)` on a JSON value: ints pass through, bools become 0/1,
strings are parsed; anything else raises (`none`). -/
def pyInt : Json → Option Int
  | .int n => some n
  | .bool b => some (if b then 1 else 0)
  | .str s => pyIntOfString s
  | _ => none

/-- Python `str(x)` as used in f-strings of the source (only ever reached with
string or scalar values in practice; containers get a placeholder). -/
def pyStr : Json → String
  | .str s => s
  | .int n => toString n
  | .bool b => if b then "True" else "False"
  | .null => "None"
  | .arr _ => "<list>"
  | .obj _ => "<dict>"

/-- A Python exception: either a FastAPI `HTTPException` carrying a status
code and detail, or any other exception rendered by its message. -/
inductive PyErr where
  | http (status : Nat) (detail : String)
  | exn (msg : String)

/-- Python `str(e)` for an exception, used in per-item failure messages. -/
def errStr : PyErr → String
  | .http s d => "(" ++ toString s ++ ", " ++ d ++ ")"
  | .exn m => m

/-- One outbound HTTP response: status code, raw text, and the result of
parsing the text as JSON (`none` when parsing would raise). -/
structure HttpResp where
  status : Nat
  text : String
  json : Option Json

/-- Success-status check, matching `200 <= r.status_code < 300` and httpx `is_success`. -/
def is2xx (s : Nat) : Bool := 200 ≤ s && s < 300

/-- Truthiness of an optional Python string (`None` and the empty string are
falsy). -/
def strTruthy : Option String → Bool
  | none => false
  | some s => s != ""

/-- Embedding of `require_api_key` (app.py lines 22-25): `provided =
x_api_key or apikey`; rejects with 401 when a shim key is configured and
`provided` differs from it.  Result: `some 401` for the raised
`HTTPException`, `none` for pass. -/
def require_api_key (shimApiKey : String) (x_api_key apikey : Option String) : Option Nat :=
  let provided := if strTruthy x_api_key then x_api_key else apikey
  if shimApiKey ≠ "" ∧ provided ≠ some shimApiKey then some 401 else none

/-- The canonical request body built by `overseerr_request` (lines 32-42):
mediaType, mediaId, userId, and for `"tv"` a seasons field driven by the
`DEFAULT_TV_SEASONS` configuration. -/
def overseerr_payload (mediaType : String) (tmdbId userId : Int)
    (defaultTvSeasons : String) : Json :=
  let base := [("mediaType", Json.str mediaType), ("mediaId", Json.int tmdbId),
               ("userId", Json.int userId)]
  if mediaType = "tv" then
    if defaultTvSeasons = "all" then .obj (base ++ [("seasons", Json.str "all")])
    else if defaultTvSeasons = "first" then
      .obj (base ++ [("seasons", Json.arr [Json.int 1])])
    else .obj base
  else .obj base

/-- Embedding of `overseerr_request` (lines 28-55).  Configuration is passed explicitly;
`net` is the downstream response (or a transport failure).  The second
component counts outbound network calls made by this invocation. -/
def overseerr_request (url apiKey : String) (userId : Int)
    (defaultTvSeasons : String) (dryRun : Bool) (mediaType : String)
    (tmdbId : Int) (net : Except String HttpResp) :
    Except PyErr Json × Nat :=
  if url = "" ∨ apiKey = "" then
    (.error (.http 500 "Overseerr not configured (OVERSEERR_URL/OVERSEERR_API_KEY)"), 0)
  else
    let payload := overseerr_payload mediaType tmdbId userId defaultTvSeasons
    if dryRun then
      (.ok (.obj [("dry_run", Json.bool true), ("would_request", payload)]), 0)
    else
      match net with
      | .error m => (.error (.exn m), 1)
      | .ok r =>
        if is2xx r.status then
          if r.text = "" then (.ok (.obj [("ok", Json.bool true)]), 1)
          else
            match r.json with
            | some j => (.ok j, 1)
            | none => (.error (.exn "JSONDecodeError"), 1)
        else
          (.error (.http 502 ("Overseerr error " ++ toString r.status ++ ": " ++ r.text)), 1)

/-- Embedding of `tmdb_from_tvdb` (lines 58-73).  Returns the optional mapped id; the
second component counts outbound lookups.  `r.raise_for_status()` raises on
every non-2xx status (httpx semantics), before the body is parsed. -/
def tmdb_from_tvdb (tmdbApiKey : String) (tvdbId : Int)
    (net : Except String HttpResp) : Except PyErr (Option Int) × Nat :=
  if tmdbApiKey = "" then (.ok none, 0)
  else
    match net with
    | .error m => (.error (.exn m), 1)
    | .ok r =>
      if ¬ is2xx r.status then
        (.error (.exn ("HTTPStatusError " ++ toString r.status)), 1)
      else
        match r.json with
        | none => (.error (.exn "JSONDecodeError"), 1)
        | some data =>
          match data with
          | .obj _ =>
            let tvResults := pyOrJson (data.get "tv_results") (.arr [])
            if ¬ tvResults.truthy then (.ok none, 1)
            else
              match tvResults with
              | .arr (first :: _) =>
                match first with
                | .obj ffs =>
                  match lookupKey ffs "id" with
                  | none => (.error (.exn "KeyError"), 1)
                  | some v =>
                    match pyInt v with
                    | some n => (.ok (some n), 1)
                    | none => (.error (.exn "ValueError"), 1)
                | _ => (.error (.exn "TypeError"), 1)
              | _ => (.error (.exn "TypeError"), 1)
          | _ => (.error (.exn "AttributeError"), 1)

/-- Identifier extraction for one movie item (lines 203-208): the direct
`or`-chain over the two spellings; only when that chain result `is None` and
`it.get("movie")` is a dict is the nested chain consulted. -/
def extract_movie_id (it : Json) : Json :=
  match it with
  | .obj _ =>
    let direct := pyOrJson (it.get "tmdbId") (it.get "tmdb_id")
    if direct.isNull then
      match it.get "movie" with
      | .obj mfs =>
        pyOrJson (Json.get (.obj mfs) "tmdbId") (Json.get (.obj mfs) "tmdb_id")
      | _ => direct
    else direct
  | _ => .null

/-- Identifier extraction for one series item (lines 324-330). -/
def extract_series_id (it : Json) : Json :=
  match it with
  | .obj _ =>
    let direct := pyOrJson (it.get "tvdbId") (it.get "tvdb_id")
    if direct.isNull then
      match it.get "series" with
      | .obj sfs =>
        pyOrJson (Json.get (.obj sfs) "tvdbId") (Json.get (.obj sfs) "tvdb_id")
      | _ => direct
    else direct
  | _ => .null

/-- Processing of one movie-import item (lines 202-218).  `forward` is the
`overseerr_request("movie", ·)` call.  `ok r` is the appended result row; an
`error` is an exception escaping the loop (Python's `except` handler itself
re-evaluates `int(tmdb_id)`, so a non-convertible identifier re-raises and
escapes the handler). -/
def movie_item (forward : Int → Except PyErr Json) (it : Json) :
    Except PyErr Json :=
  let tmdb_id := extract_movie_id it
  if ¬ tmdb_id.truthy then
    .ok (.obj [("ok", Json.bool false), ("msg", Json.str "missing tmdbId"),
               ("item", it)])
  else
    match pyInt tmdb_id with
    | none => .error (.exn "ValueError")
    | some n =>
      match forward n with
      | .ok _ => .ok (.obj [("ok", Json.bool true), ("tmdbId", Json.int n)])
      | .error e =>
        .ok (.obj [("ok", Json.bool false), ("tmdbId", Json.int n),
                   ("msg", Json.str (errStr e))])

/-- Processing of one series-import item (lines 323-346).  The
`int(tvdb_id)` conversion and the `tmdb_from_tvdb` bridge call (line 337)
are not inside any `try`, so their exceptions escape the loop; only the
`overseerr_request` call is guarded. -/
def series_item (bridge : Int → Except PyErr (Option Int))
    (forward : Int → Except PyErr Json) (it : Json) : Except PyErr Json :=
  let tvdb_id := extract_series_id it
  if ¬ tvdb_id.truthy then
    .ok (.obj [("ok", Json.bool false), ("msg", Json.str "missing tvdbId"),
               ("item", it)])
  else
    match pyInt tvdb_id with
    | none => .error (.exn "ValueError")
    | some n =>
      match bridge n with
      | .error e => .error e
      | .ok none =>
        .ok (.obj [("ok", Json.bool false), ("tvdbId", Json.int n),
                   ("msg", Json.str "tvdb->tmdb conversion failed")])
      | .ok (some t) =>
        match forward t with
        | .ok _ =>
          .ok (.obj [("ok", Json.bool true), ("tvdbId", Json.int n),
                     ("tmdbId", Json.int t)])
        | .error e =>
          .ok (.obj [("ok", Json.bool false), ("tvdbId", Json.int n),
                     ("tmdbId", Json.int t), ("msg", Json.str (errStr e))])

/-- The sequential `for it in items` loop: an uncaught exception in `step`
aborts processing of the remaining items. -/
def run_items (step : Json → Except PyErr Json) : List Json → Except PyErr (List Json)
  | [] => .ok []
  | it :: rest =>
    match step it with
    | .error e => .error e
    | .ok r =>
      match run_items step rest with
      | .error e => .error e
      | .ok rs => .ok (r :: rs)

/-- Rows whose `ok` field is truthy, matching
`sum(1 for r in results if r.get("ok"))`. -/
def countOk (results : List Json) : Nat :=
  (results.filter (fun r => (r.get "ok").truthy)).length

/-- Rows counted by `sum(1 for r in results if not r.get("ok"))`. -/
def countFail (results : List Json) : Nat :=
  (results.filter (fun r => !(r.get "ok").truthy)).length

/-- The aggregate body returned by both import endpoints (lines 221-225 and
348-352). -/
def batch_summary (results : List Json) : Json :=
  .obj [("imported", Json.int (countOk results)),
        ("failed", Json.int (countFail results)),
        ("results", Json.arr (results))]

/-- The final wrap step of the source normalizer: a selected list is used
as-is, any other selected value becomes a singleton. -/
def wrapAsList (j : Json) : List Json :=
  match j with
  | .arr xs => xs
  | _ => [j]

/-- Payload normalization of `movie_import` (lines 190-199): wrapper-key
`or`-chain, singleton fallback on a falsy chain result, then a final
singleton wrap when the selection is not a list. -/
def normalize_movie (body : Json) : List Json :=
  let items : Json :=
    match body with
    | .obj _ =>
      let w := pyOrJson (pyOrJson (pyOrJson (body.get "movies") (body.get "movie"))
                  (body.get "importListMovies")) (.arr [])
      if ¬ w.truthy then .arr [body] else w
    | _ => body
  wrapAsList items

/-- Payload normalization of `series_import` (lines 307-320). -/
def normalize_series (body : Json) : List Json :=
  let items : Json :=
    match body with
    | .obj _ =>
      let w := pyOrJson (pyOrJson (pyOrJson (pyOrJson (body.get "series")
                  (body.get "shows")) (body.get "importListSeries"))
                  (body.get "importListItems")) (.arr [])
      if ¬ w.truthy then .arr [body] else w
    | _ => body
  wrapAsList items

/-- Embedding of the `movie_import` endpoint (lines 177-225), after the auth gate. -/
def movie_import (mode : String) (forward : Int → Except PyErr Json)
    (body : Json) : Except PyErr Json :=
  if mode ≠ "radarr" then .error (.http 404 "Not in radarr mode")
  else
    match run_items (movie_item forward) (normalize_movie body) with
    | .error e => .error e
    | .ok results => .ok (batch_summary results)

/-- Embedding of the `series_import` endpoint (lines 294-352), after the auth gate. -/
def series_import (mode : String) (bridge : Int → Except PyErr (Option Int))
    (forward : Int → Except PyErr Json) (body : Json) : Except PyErr Json :=
  if mode ≠ "sonarr" then .error (.http 404 "Not in sonarr mode")
  else
    match run_items (series_item bridge forward) (normalize_series body) with
    | .error e => .error e
    | .ok results => .ok (batch_summary results)

/-- Embedding of the `add_movie` endpoint (lines 453-477), after the auth gate.  `now` and
`nowStr` stand for `int(time.time())` and the formatted gmtime. -/
def add_movie (mode : String) (forward : Int → Except PyErr Json)
    (now : Int) (nowStr : String) (body : Json) : Except PyErr Json :=
  if mode ≠ "radarr" then .error (.http 404 "Not in radarr mode")
  else
    match body with
    | .obj _ =>
      let tmdb_id := pyOrJson (body.get "tmdbId") (body.get "tmdb_id")
      if ¬ tmdb_id.truthy then
        .error (.http 400 "Missing tmdbId in Radarr add payload")
      else
        match pyInt tmdb_id with
        | none => .error (.exn "ValueError")
        | some n =>
          match forward n with
          | .error e => .error e
          | .ok _ =>
            .ok (.obj [("id", Json.int now),
                       ("title", body.getD "title" (.str "Unknown")),
                       ("tmdbId", Json.int n),
                       ("monitored", body.getD "monitored" (.bool true)),
                       ("path", body.getD "path" (.str "")),
                       ("added", Json.str nowStr)])
    | _ => .error (.exn "AttributeError")

/-- Characters after the first occurrence of `c`, or `none` when absent. -/
def charsAfterFirst (c : Char) : List Char → Option (List Char)
  | [] => none
  | x :: rest => if x = c then some rest else charsAfterFirst c rest

/-- The part of `term` after its first colon: `term.split(":", 1)[1]`.  The
`none` case would be an IndexError in Python; it is unreachable because the
endpoint first checks the term carries the namespace marker and a colon. -/
def afterFirstColon (s : String) : String :=
  match charsAfterFirst ':' s.toList with
  | some cs => String.mk cs
  | none => ""

/-- The part of a date string before its first dash:
`release_date.split("-")[0]`. -/
def firstDashPart (s : String) : String :=
  String.mk (s.toList.takeWhile (fun c => c ≠ '-'))

/-- Case-insensitive marker test over character lists. -/
def startsWithChars : List Char → List Char → Bool
  | _, [] => true
  | [], _ :: _ => false
  | c :: cs, p :: ps => c == p && startsWithChars cs ps

/-- Python `s.lower()`. -/
def pyLower (s : String) : String := String.mk (s.toList.map Char.toLower)

/-- Python `s.startswith(pat)`. -/
def pyStartsWith (s pat : String) : Bool :=
  startsWithChars s.toList pat.toList

/-- Embedding of `int(release_date.split("-")[0]) if release_date else 0` (line 432). -/
def movieYear (release_date : Json) : Except PyErr Int :=
  if ¬ release_date.truthy then .ok 0
  else
    match release_date with
    | .str s =>
      match pyIntOfString (firstDashPart s) with
      | some y => .ok y
      | none => .error (.exn "ValueError")
    | _ => .error (.exn "AttributeError")

/-- The `images` list of a lookup result (lines 440-443). -/
def imagesOf (poster_path : Json) : Json :=
  if poster_path.truthy then
    .arr [Json.obj [("coverType", Json.str "poster"),
      ("url", Json.str ("https://image.tmdb.org/t/p/original" ++ pyStr poster_path))]]
  else .arr []

/-- Embedding of the `movie_lookup` endpoint (lines 400-446), after the auth gate.  `net` is
the TMDb details response for the parsed id. -/
def movie_lookup (mode tmdbApiKey : String) (term : String)
    (net : Except String HttpResp) : Except PyErr Json :=
  if mode ≠ "radarr" then .ok (.arr [])
  else if ¬ (pyStartsWith (pyLower term) "tmdb:") then .ok (.arr [])
  else if tmdbApiKey = "" then
    .error (.http 400 "TMDB_API_KEY is required for /movie/lookup")
  else
    match pyIntOfString (afterFirstColon term) with
    | none => .error (.exn "ValueError")
    | some tmdb_id =>
      match net with
      | .error m => .error (.exn m)
      | .ok r =>
        if r.status == 404 then .ok (.arr [])
        else if ¬ is2xx r.status then
          .error (.exn ("HTTPStatusError " ++ toString r.status))
        else
          match r.json with
          | none => .error (.exn "JSONDecodeError")
          | some m =>
            match m with
            | .obj _ =>
              let title := pyOrJson (pyOrJson (m.get "title") (m.get "original_title"))
                  (.str "Unknown")
              let release_date := pyOrJson (m.get "release_date") (.str "")
              match movieYear release_date with
              | .error e => .error e
              | .ok year =>
                .ok (.arr [Json.obj [("title", title), ("year", Json.int year),
                  ("tmdbId", Json.int tmdb_id),
                  ("titleSlug", Json.str ("tmdb-" ++ toString tmdb_id)),
                  ("images", imagesOf (m.get "poster_path"))]])
            | _ => .error (.exn "AttributeError")

/-- Embedding of the `create_tag` endpoint (lines 143-152), after the auth gate: a fixed id 1
and only the submitted label (default "kometa"); the body is not echoed. -/
def create_tag (body : Json) : Except PyErr Json :=
  match body with
  | .obj fs =>
    .ok (.obj [("id", Json.int 1),
               ("label", (lookupKey fs "label").getD (.str "kometa"))])
  | _ => .error (.exn "AttributeError")

/-- Python dict assignment `d[k] = v`: replace in place when the key exists,
append otherwise. -/
def insertKey : List (String × Json) → String → Json → List (String × Json)
  | [], k, v => [(k, v)]
  | p :: rest, k, v =>
    if p.1 = k then (k, v) :: rest else p :: insertKey rest k v

/-- Python dict-literal spread `{..a, **b}`: insert `b`'s entries into `a` in
order, later entries overriding earlier ones. -/
def dictMerge (a b : List (String × Json)) : List (String × Json) :=
  b.foldl (fun acc p => insertKey acc p.1 p.2) a

/-- Embedding of the `add_exclusion` endpoint (lines 166-174), whose body is
the dict literal spreading the id entry and then the request body. -/
def add_exclusion (now : Int) (body : Json) : Except PyErr Json :=
  match body with
  | .obj fs => .ok (.obj (dictMerge [("id", Json.int now)] fs))
  | _ => .error (.exn "TypeError")

/-- Embedding of the `add_import_list_exclusion` endpoint (lines 369-377),
identical to the exclusion endpoint. -/
def add_import_list_exclusion (now : Int) (body : Json) : Except PyErr Json :=
  match body with
  | .obj fs => .ok (.obj (dictMerge [("id", Json.int now)] fs))
  | _ => .error (.exn "TypeError")

/-- Modelled from the spec: the Payload Normalizer as the spec's words
describe it for claim C3 — select the value of the first wrapper key whose
value is a non-empty sequence; otherwise treat the whole mapping as a single
item.  This is the spec-side definition used only to compare against the
source-derived `normalize_movie`/`normalize_series`. -/
def firstNonEmptySeq (body : Json) : List String → Option (List Json)
  | [] => none
  | k :: rest =>
    match body.get k with
    | .arr (x :: xs) => some (x :: xs)
    | _ => firstNonEmptySeq body rest

/-- Modelled from the spec: the movie-variant normalizer per the spec's words
(wrapper keys "movies", "movie", "importListMovies"). -/
def normalize_movie_claimed (body : Json) : List Json :=
  match body with
  | .arr xs => xs
  | .obj _ =>
    match firstNonEmptySeq body ["movies", "movie", "importListMovies"] with
    | some xs => xs
    | none => [body]
  | j => [j]

/-- Modelled from the spec: the series-variant normalizer per the spec's
words (wrapper keys "series", "shows", "importListSeries",
"importListItems"). -/
def normalize_series_claimed (body : Json) : List Json :=
  match body with
  | .arr xs => xs
  | .obj _ =>
    match firstNonEmptySeq body ["series", "shows", "importListSeries", "importListItems"] with
    | some xs => xs
    | none => [body]
  | j => [j]

/-- Whether a JSON value is a sequence or null/absent (the shapes on which
the source normalizer and the spec's wording agree). -/
def seqOrNull : Json → Bool
  | .arr _ => true
  | .null => true
  | _ => false

/-- Bool test that an import-endpoint response is an HTTP 200 whose body
carries one result row per input item and aggregated counts summing to the
number of items. -/
def summary_okB : Except PyErr Json → Nat → Bool
  | .ok b, n =>
    match b.get "results", b.get "imported", b.get "failed" with
    | .arr rs, .int i, .int f => rs.length == n && i + f == (n : Int)
    | _, _, _ => false
  | .error _, _ => false

/-- Whether an import item is benign for `movie_import`: its extracted
identifier is falsy (a reported per-item failure) or convertible to an int
(after which any forwarder outcome is caught per item). -/
def movieBenign (it : Json) : Bool :=
  let v := extract_movie_id it
  if v.truthy then (pyInt v).isSome else true

/-- Whether an import item is benign for `series_import` under a given
bridge: falsy identifier, or an int identifier on which the bridge does not
raise. -/
def exOk : Except PyErr (Option Int) → Bool
  | .ok _ => true
  | .error _ => false

def seriesBenign (bridge : Int → Except PyErr (Option Int)) (it : Json) : Bool :=
  let v := extract_series_id it
  if v.truthy then
    match pyInt v with
    | none => false
    | some n => exOk (bridge n)
  else true

/-- The body of an `ok` response, used to state field-level facts. -/
def exOkJ : Except PyErr Json → Json
  | .ok j => j
  | .error _ => .null

/-- Key-presence test on a JSON object. -/
def hasKey (j : Json) (k : String) : Bool :=
  match j with
  | .obj fs => (lookupKey fs k).isSome
  | _ => false

theorem truthy_not_null (j : Json) (h : j.truthy = true) : j.isNull = false := by
  cases j <;> simp [Json.truthy, Json.isNull] at h ⊢

theorem counts_add (rs : List Json) : countOk rs + countFail rs = rs.length := by
  induction rs with
  | nil => rfl
  | cons r rest ih =>
    by_cases h : (Json.get r "ok").truthy = true <;>
      simp [countOk, countFail, List.filter, h] at ih ⊢ <;> omega

theorem summary_okB_ok (rs : List Json) (n : Nat) (h : rs.length = n) :
    summary_okB (.ok (batch_summary rs)) n = true := by
  subst h
  have hc := counts_add rs
  show (rs.length == rs.length
      && (((countOk rs : Int)) + ((countFail rs : Int)) == ((rs.length : Int)))) = true
  simp only [Bool.and_eq_true, beq_iff_eq]
  refine ⟨by simp, by omega⟩

theorem run_items_ok (step : Json → Except PyErr Json) (items : List Json)
    (h : ∀ it ∈ items, ∃ r, step it = .ok r) :
    ∃ rs, run_items step items = .ok rs ∧ rs.length = items.length := by
  induction items with
  | nil => exact ⟨[], rfl, rfl⟩
  | cons it rest ih =>
    obtain ⟨r, hr⟩ := h it (List.mem_cons_self it rest)
    obtain ⟨rs, hrs, hlen⟩ := ih (fun x hx => h x (List.mem_cons_of_mem _ hx))
    exact ⟨r :: rs, by simp [run_items, hr, hrs], by simp [hlen]⟩

theorem movie_item_ok (forward : Int → Except PyErr Json) (it : Json)
    (h : movieBenign it = true) : ∃ r, movie_item forward it = .ok r := by
  unfold movieBenign at h
  by_cases ht : (extract_movie_id it).truthy = true
  · simp only [ht, if_true] at h
    obtain ⟨n, hn⟩ := Option.isSome_iff_exists.mp h
    cases hf : forward n with
    | ok j =>
      exact ⟨Json.obj [("ok", Json.bool true), ("tmdbId", Json.int n)],
        by simp [movie_item, ht, hn, hf]⟩
    | error e =>
      exact ⟨Json.obj [("ok", Json.bool false), ("tmdbId", Json.int n),
          ("msg", Json.str (errStr e))],
        by simp [movie_item, ht, hn, hf]⟩
  · refine ⟨Json.obj [("ok", Json.bool false), ("msg", Json.str "missing tmdbId"),
        ("item", it)], ?_⟩
    simp [movie_item, ht]

theorem series_item_ok (bridge : Int → Except PyErr (Option Int))
    (forward : Int → Except PyErr Json) (it : Json)
    (h : seriesBenign bridge it = true) :
    ∃ r, series_item bridge forward it = .ok r := by
  unfold seriesBenign at h
  by_cases ht : (extract_series_id it).truthy = true
  · simp only [ht, if_true] at h
    cases hp : pyInt (extract_series_id it) with
    | none =>
      rw [hp] at h
      exact ((Bool.false_ne_true) (h : false = true)).elim
    | some n =>
      rw [hp] at h
      have h2 : exOk (bridge n) = true := h
      cases hb : bridge n with
      | error e =>
        rw [hb] at h2
        exact ((Bool.false_ne_true) (h2 : false = true)).elim
      | ok o =>
        cases o with
        | none =>
          exact ⟨Json.obj [("ok", Json.bool false), ("tvdbId", Json.int n),
              ("msg", Json.str "tvdb->tmdb conversion failed")],
            by simp [series_item, ht, hp, hb]⟩
        | some t =>
          cases hf : forward t with
          | ok j =>
            exact ⟨Json.obj [("ok", Json.bool true), ("tvdbId", Json.int n),
                ("tmdbId", Json.int t)],
              by simp [series_item, ht, hp, hb, hf]⟩
          | error e =>
            exact ⟨Json.obj [("ok", Json.bool false), ("tvdbId", Json.int n),
                ("tmdbId", Json.int t), ("msg", Json.str (errStr e))],
              by simp [series_item, ht, hp, hb, hf]⟩
  · refine ⟨Json.obj [("ok", Json.bool false), ("msg", Json.str "missing tvdbId"),
        ("item", it)], ?_⟩
    simp [series_item, ht]

theorem movie_import_ok (forward : Int → Except PyErr Json) (body : Json)
    (h : ∀ it ∈ normalize_movie body, movieBenign it = true) :
    summary_okB (movie_import "radarr" forward body)
      (normalize_movie body).length = true := by
  obtain ⟨rs, hrs, hlen⟩ :=
    run_items_ok (movie_item forward) (normalize_movie body)
      (fun it hit => movie_item_ok forward it (h it hit))
  unfold movie_import
  rw [if_neg (by simp), hrs]
  exact summary_okB_ok rs _ hlen

theorem series_import_ok (bridge : Int → Except PyErr (Option Int))
    (forward : Int → Except PyErr Json) (body : Json)
    (h : ∀ it ∈ normalize_series body, seriesBenign bridge it = true) :
    summary_okB (series_import "sonarr" bridge forward body)
      (normalize_series body).length = true := by
  obtain ⟨rs, hrs, hlen⟩ :=
    run_items_ok (series_item bridge forward) (normalize_series body)
      (fun it hit => series_item_ok bridge forward it (h it hit))
  unfold series_import
  rw [if_neg (by simp), hrs]
  exact summary_okB_ok rs _ hlen

/-- Claim C1 (amended): for batch imports, per-item failures of the kinds the
code guards against — a missing/falsy identifier, a bridge "no mapping"
result, and any exception raised by the forwarder — never prevent processing
of subsequent items nor fail the overall call: the endpoint returns an HTTP
200 body with one result row per input item and aggregated counts.  (An
exception raised by the identifier bridge itself, or a truthy identifier
that is not convertible to an integer, aborts the batch instead; see the
counterexample.) -/
theorem import_isolates_benign_item_failures
    (forwardM : Int → Except PyErr Json)
    (bridge : Int → Except PyErr (Option Int))
    (forwardS : Int → Except PyErr Json) (mbody sbody : Json)
    (hm : ∀ it ∈ normalize_movie mbody, movieBenign it = true)
    (hs : ∀ it ∈ normalize_series sbody, seriesBenign bridge it = true) :
    summary_okB (movie_import "radarr" forwardM mbody)
        (normalize_movie mbody).length = true
    ∧ summary_okB (series_import "sonarr" bridge forwardS sbody)
        (normalize_series sbody).length = true :=
  ⟨movie_import_ok forwardM mbody hm, series_import_ok bridge forwardS sbody hs⟩

/-- Witness for C1: a movie batch whose forwarder always raises a 502 and a
series batch with one bridged item and one missing-identifier item both give
a 200 summary with a row per item. -/
theorem import_isolates_benign_item_failures_witness :
    summary_okB (movie_import "radarr"
        (fun _ => .error (.http 502 "Overseerr error 500: boom"))
        (Json.arr [Json.obj [("tmdbId", Json.int 1)], Json.obj []])) 2 = true
    ∧ summary_okB (series_import "sonarr" (fun n => .ok (some n))
        (fun _ => .error (.http 500 "x"))
        (Json.arr [Json.obj [("tvdbId", Json.int 5)],
                   Json.obj [("foo", Json.str "bar")]])) 2 = true :=
  import_isolates_benign_item_failures
    (fun _ => .error (.http 502 "Overseerr error 500: boom"))
    (fun n => .ok (some n)) (fun _ => .error (.http 500 "x"))
    (Json.arr [Json.obj [("tmdbId", Json.int 1)], Json.obj []])
    (Json.arr [Json.obj [("tvdbId", Json.int 5)],
               Json.obj [("foo", Json.str "bar")]])
    (by decide) (by decide)

/-- Counterexample for C1 as stated: in a series import, one item whose
bridge lookup raises (an unexpected transport/protocol failure) makes the
whole endpoint raise instead of returning a 200 summary, and the second item
is never processed. -/
theorem series_import_bridge_error_aborts_batch :
    series_import "sonarr" (fun _ => .error (.exn "ConnectError"))
        (fun _ => .ok (Json.obj []))
        (Json.arr [Json.obj [("tvdbId", Json.int 5)],
                   Json.obj [("tvdbId", Json.int 6)]])
      = .error (.exn "ConnectError") := rfl

/-- Claim C2 (amended): identifier extraction follows Python truthiness, not
first-non-null: the camel-case direct value wins only when truthy; otherwise
the snake-case value is taken whenever it is non-null (even when falsy); the
nested sub-object is consulted only when both direct lookups leave null; and
an item is reported as the per-item failure "missing tmdbId"/"missing
tvdbId" (without aborting the rest of the batch) exactly when the final
extracted value is falsy. -/
theorem identifier_extraction_spec :
    (∀ fs, (Json.get (.obj fs) "tmdbId").truthy = true →
        extract_movie_id (.obj fs) = Json.get (.obj fs) "tmdbId")
    ∧ (∀ fs, (Json.get (.obj fs) "tmdbId").truthy = false →
        (Json.get (.obj fs) "tmdb_id").isNull = false →
        extract_movie_id (.obj fs) = Json.get (.obj fs) "tmdb_id")
    ∧ (∀ fs mfs, (Json.get (.obj fs) "tmdbId").truthy = false →
        (Json.get (.obj fs) "tmdb_id").isNull = true →
        Json.get (.obj fs) "movie" = .obj mfs →
        extract_movie_id (.obj fs)
          = pyOrJson (Json.get (.obj mfs) "tmdbId") (Json.get (.obj mfs) "tmdb_id"))
    ∧ (∀ fs, (Json.get (.obj fs) "tvdbId").truthy = true →
        extract_series_id (.obj fs) = Json.get (.obj fs) "tvdbId")
    ∧ (∀ fs, (Json.get (.obj fs) "tvdbId").truthy = false →
        (Json.get (.obj fs) "tvdb_id").isNull = false →
        extract_series_id (.obj fs) = Json.get (.obj fs) "tvdb_id")
    ∧ (∀ fs sfs, (Json.get (.obj fs) "tvdbId").truthy = false →
        (Json.get (.obj fs) "tvdb_id").isNull = true →
        Json.get (.obj fs) "series" = .obj sfs →
        extract_series_id (.obj fs)
          = pyOrJson (Json.get (.obj sfs) "tvdbId") (Json.get (.obj sfs) "tvdb_id"))
    ∧ (∀ forward it, (extract_movie_id it).truthy = false →
        movie_item forward it
          = .ok (.obj [("ok", Json.bool false), ("msg", Json.str "missing tmdbId"),
                       ("item", it)]))
    ∧ (∀ bridge forward it, (extract_series_id it).truthy = false →
        series_item bridge forward it
          = .ok (.obj [("ok", Json.bool false), ("msg", Json.str "missing tvdbId"),
                       ("item", it)]))
    ∧ (∀ forward it rest, (extract_movie_id it).truthy = false →
        run_items (movie_item forward) (it :: rest)
          = (run_items (movie_item forward) rest).map
              (fun rs => (.obj [("ok", Json.bool false),
                  ("msg", Json.str "missing tmdbId"), ("item", it)]) :: rs)) := by
  refine ⟨?_, ?_, ?_, ?_, ?_, ?_, ?_, ?_, ?_⟩
  · intro fs h1
    have h2 := truthy_not_null _ h1
    simp [extract_movie_id, pyOrJson, h1, h2]
  · intro fs h1 h2
    simp [extract_movie_id, pyOrJson, h1, h2]
  · intro fs mfs h1 h2 h3
    simp [extract_movie_id, pyOrJson, h1, h2, h3]
  · intro fs h1
    have h2 := truthy_not_null _ h1
    simp [extract_series_id, pyOrJson, h1, h2]
  · intro fs h1 h2
    simp [extract_series_id, pyOrJson, h1, h2]
  · intro fs sfs h1 h2 h3
    simp [extract_series_id, pyOrJson, h1, h2, h3]
  · intro forward it h
    simp [movie_item, h]
  · intro bridge forward it h
    simp [series_item, h]
  · intro forward it rest h
    have hrow : movie_item forward it
        = .ok (.obj [("ok", Json.bool false), ("msg", Json.str "missing tmdbId"),
                     ("item", it)]) := by simp [movie_item, h]
    cases hrest : run_items (movie_item forward) rest <;>
      simp [run_items, hrow, hrest, Except.map]

/-- Witness for C2: concrete extractions and a missing-identifier item
followed by a processed item. -/
theorem identifier_extraction_spec_witness :
    extract_movie_id (Json.obj [("tmdbId", Json.int 7)]) = Json.int 7
    ∧ extract_movie_id (Json.obj [("tmdbId", Json.int 0), ("tmdb_id", Json.int 9)])
        = Json.int 9
    ∧ extract_movie_id (Json.obj [("movie", Json.obj [("tmdbId", Json.int 3)])])
        = Json.int 3
    ∧ extract_series_id (Json.obj [("tvdbId", Json.int 4)]) = Json.int 4
    ∧ run_items (movie_item (fun _ => .ok (Json.obj [])))
          (Json.obj [("foo", Json.str "bar")] :: [Json.obj [("tmdbId", Json.int 2)]])
        = .ok [Json.obj [("ok", Json.bool false), ("msg", Json.str "missing tmdbId"),
                ("item", Json.obj [("foo", Json.str "bar")])],
               Json.obj [("ok", Json.bool true), ("tmdbId", Json.int 2)]] := by
  refine ⟨identifier_extraction_spec.1 _ (by decide),
    identifier_extraction_spec.2.1 _ (by decide) (by decide),
    identifier_extraction_spec.2.2.1 [("movie", Json.obj [("tmdbId", Json.int 3)])]
      [("tmdbId", Json.int 3)] (by decide) (by decide) rfl,
    identifier_extraction_spec.2.2.2.1 _ (by decide), ?_⟩
  rw [identifier_extraction_spec.2.2.2.2.2.2.2.2 _ _ _ (by decide)]
  rfl

/-- Counterexample for C2 as stated: with `{"tmdbId": 0, "tmdb_id": 7}` the
first non-null match (the camel-case 0) does not win — the code forwards 7 —
and with `{"tmdbId": 0}` the item is reported as "missing tmdbId" although a
non-null spelling is present. -/
theorem extraction_nonnull_counterexample :
    movie_item (fun n => .ok (Json.obj [("echo", Json.int n)]))
        (Json.obj [("tmdbId", Json.int 0), ("tmdb_id", Json.int 7)])
      = .ok (Json.obj [("ok", Json.bool true), ("tmdbId", Json.int 7)])
    ∧ movie_item (fun n => .ok (Json.obj [("echo", Json.int n)]))
        (Json.obj [("tmdbId", Json.int 0)])
      = .ok (Json.obj [("ok", Json.bool false), ("msg", Json.str "missing tmdbId"),
          ("item", Json.obj [("tmdbId", Json.int 0)])]) := ⟨rfl, rfl⟩

theorem pyOr_truthy (a b : Json) (h : a.truthy = true) : pyOrJson a b = a :=
  if_pos h

theorem pyOr_falsy (a b : Json) (h : a.truthy = false) : pyOrJson a b = b :=
  if_neg (by simp [h])

theorem seqOrNull_cases (j : Json) (h : seqOrNull j = true) :
    j = .null ∨ ∃ xs, j = .arr xs := by
  cases j with
  | null => exact Or.inl rfl
  | arr xs => exact Or.inr ⟨xs, rfl⟩
  | bool b => exact absurd h (by simp [seqOrNull])
  | int n => exact absurd h (by simp [seqOrNull])
  | str s => exact absurd h (by simp [seqOrNull])
  | obj fs => exact absurd h (by simp [seqOrNull])

/-- Claim C3 (amended): a plain sequence is used element by element; from a
single mapping the source selects the value of the first wrapper key (in the
fixed precedence order) whose value is TRUTHY — non-empty, non-zero,
non-null, but not necessarily a sequence — wrapping a non-sequence selection
in a singleton; when every wrapper value is falsy or absent the entire
mapping becomes a single item.  The spec's "first non-empty sequence" rule
agrees with the source exactly when every wrapper value is a sequence or
absent/null. -/
theorem normalize_spec :
    (∀ xs, normalize_movie (.arr xs) = xs)
    ∧ (∀ xs, normalize_series (.arr xs) = xs)
    ∧ (∀ fs, (Json.get (.obj fs) "movies").truthy = true →
        normalize_movie (.obj fs) = wrapAsList (Json.get (.obj fs) "movies"))
    ∧ (∀ fs, (Json.get (.obj fs) "movies").truthy = false →
        (Json.get (.obj fs) "movie").truthy = true →
        normalize_movie (.obj fs) = wrapAsList (Json.get (.obj fs) "movie"))
    ∧ (∀ fs, (Json.get (.obj fs) "movies").truthy = false →
        (Json.get (.obj fs) "movie").truthy = false →
        (Json.get (.obj fs) "importListMovies").truthy = true →
        normalize_movie (.obj fs) = wrapAsList (Json.get (.obj fs) "importListMovies"))
    ∧ (∀ fs, (Json.get (.obj fs) "movies").truthy = false →
        (Json.get (.obj fs) "movie").truthy = false →
        (Json.get (.obj fs) "importListMovies").truthy = false →
        normalize_movie (.obj fs) = [.obj fs])
    ∧ (∀ fs, (Json.get (.obj fs) "series").truthy = true →
        normalize_series (.obj fs) = wrapAsList (Json.get (.obj fs) "series"))
    ∧ (∀ fs, (Json.get (.obj fs) "series").truthy = false →
        (Json.get (.obj fs) "shows").truthy = false →
        (Json.get (.obj fs) "importListSeries").truthy = false →
        (Json.get (.obj fs) "importListItems").truthy = false →
        normalize_series (.obj fs) = [.obj fs])
    ∧ (∀ body, seqOrNull (body.get "movies") = true →
        seqOrNull (body.get "movie") = true →
        seqOrNull (body.get "importListMovies") = true →
        normalize_movie body = normalize_movie_claimed body)
    ∧ (∀ body, seqOrNull (body.get "series") = true →
        seqOrNull (body.get "shows") = true →
        seqOrNull (body.get "importListSeries") = true →
        seqOrNull (body.get "importListItems") = true →
        normalize_series body = normalize_series_claimed body) := by
  refine ⟨fun xs => rfl, fun xs => rfl, ?_, ?_, ?_, ?_, ?_, ?_, ?_, ?_⟩
  · intro fs h1
    unfold normalize_movie
    rw [pyOr_truthy _ _ h1, pyOr_truthy _ _ h1, pyOr_truthy _ _ h1,
      if_neg (not_not_intro h1)]
  · intro fs h1 h2
    unfold normalize_movie
    rw [pyOr_falsy _ _ h1, pyOr_truthy _ _ h2, pyOr_truthy _ _ h2,
      if_neg (not_not_intro h2)]
  · intro fs h1 h2 h3
    unfold normalize_movie
    rw [pyOr_falsy _ _ h1, pyOr_falsy _ _ h2, pyOr_truthy _ _ h3,
      if_neg (not_not_intro h3)]
  · intro fs h1 h2 h3
    unfold normalize_movie
    rw [pyOr_falsy _ _ h1, pyOr_falsy _ _ h2, pyOr_falsy _ _ h3,
      if_pos (by simp [Json.truthy])]
    rfl
  · intro fs h1
    unfold normalize_series
    rw [pyOr_truthy _ _ h1, pyOr_truthy _ _ h1, pyOr_truthy _ _ h1,
      pyOr_truthy _ _ h1, if_neg (not_not_intro h1)]
  · intro fs h1 h2 h3 h4
    unfold normalize_series
    rw [pyOr_falsy _ _ h1, pyOr_falsy _ _ h2, pyOr_falsy _ _ h3,
      pyOr_falsy _ _ h4, if_pos (by simp [Json.truthy])]
    rfl
  · intro body h1 h2 h3
    cases body with
    | obj fs =>
      obtain h1 | ⟨xs1, h1⟩ := seqOrNull_cases _ h1 <;>
        obtain h2 | ⟨xs2, h2⟩ := seqOrNull_cases _ h2 <;>
          obtain h3 | ⟨xs3, h3⟩ := seqOrNull_cases _ h3
      all_goals (try cases xs1)
      all_goals (try cases xs2)
      all_goals (try cases xs3)
      all_goals
        simp [normalize_movie, normalize_movie_claimed, firstNonEmptySeq,
          pyOrJson, wrapAsList, Json.truthy, h1, h2, h3]
    | null => rfl
    | bool b => rfl
    | int n => rfl
    | str s => rfl
    | arr xs => rfl
  · intro body h1 h2 h3 h4
    cases body with
    | obj fs =>
      obtain h1 | ⟨xs1, h1⟩ := seqOrNull_cases _ h1 <;>
        obtain h2 | ⟨xs2, h2⟩ := seqOrNull_cases _ h2 <;>
          obtain h3 | ⟨xs3, h3⟩ := seqOrNull_cases _ h3 <;>
            obtain h4 | ⟨xs4, h4⟩ := seqOrNull_cases _ h4
      all_goals (try cases xs1)
      all_goals (try cases xs2)
      all_goals (try cases xs3)
      all_goals (try cases xs4)
      all_goals
        simp [normalize_series, normalize_series_claimed, firstNonEmptySeq,
          pyOrJson, wrapAsList, Json.truthy, h1, h2, h3, h4]
    | null => rfl
    | bool b => rfl
    | int n => rfl
    | str s => rfl
    | arr xs => rfl

/-- Witness for C3: concrete wrapper selections, the single-mapping
fallback, and agreement with the spec's rule on sequence-shaped wrappers. -/
theorem normalize_spec_witness :
    normalize_movie (Json.obj [("movies", Json.arr [Json.obj [("tmdbId", Json.int 1)]])])
      = [Json.obj [("tmdbId", Json.int 1)]]
    ∧ normalize_movie (Json.obj [("title", Json.str "solo")])
      = [Json.obj [("title", Json.str "solo")]]
    ∧ normalize_series (Json.obj [("series", Json.arr [Json.int 2])]) = [Json.int 2]
    ∧ normalize_movie (Json.obj [("movies", Json.arr [Json.int 1])])
      = normalize_movie_claimed (Json.obj [("movies", Json.arr [Json.int 1])])
    ∧ normalize_series (Json.obj [("shows", Json.arr [Json.int 3])])
      = normalize_series_claimed (Json.obj [("shows", Json.arr [Json.int 3])]) :=
  ⟨normalize_spec.2.2.1 [("movies", Json.arr [Json.obj [("tmdbId", Json.int 1)]])]
      (by decide),
   normalize_spec.2.2.2.2.2.1 [("title", Json.str "solo")]
      (by decide) (by decide) (by decide),
   normalize_spec.2.2.2.2.2.2.1 [("series", Json.arr [Json.int 2])] (by decide),
   normalize_spec.2.2.2.2.2.2.2.2.1 (Json.obj [("movies", Json.arr [Json.int 1])])
      (by decide) (by decide) (by decide),
   normalize_spec.2.2.2.2.2.2.2.2.2 (Json.obj [("shows", Json.arr [Json.int 3])])
      (by decide) (by decide) (by decide) (by decide)⟩

/-- Counterexample for C3 as stated: `{"movies": 5}` has no wrapper key whose
value is a non-empty sequence, so per the claim the whole mapping should be
the single item; the source instead selects the truthy non-sequence `5` and
wraps it, yielding `[5]`. -/
theorem normalize_wrapper_counterexample :
    normalize_movie (Json.obj [("movies", Json.int 5)]) = [Json.int 5]
    ∧ normalize_movie_claimed (Json.obj [("movies", Json.int 5)])
        = [Json.obj [("movies", Json.int 5)]]
    ∧ normalize_movie (Json.obj [("movies", Json.int 5)])
        ≠ normalize_movie_claimed (Json.obj [("movies", Json.int 5)]) := by
  refine ⟨rfl, rfl, ?_⟩
  intro h
  have h2 : ([Json.int 5] : List Json) = [Json.obj [("movies", Json.int 5)]] := h
  have h3 : Json.int 5 = Json.obj [("movies", Json.int 5)] := by injection h2
  exact Json.noConfusion h3

/-- Claim C4 (amended): the identifier bridge returns "no mapping" (`none`)
without error both when the metadata credential is unconfigured (performing
zero lookups) and when a 2xx response reports no match (empty or absent
`tv_results`); it performs exactly one outbound lookup on every configured
call; and it raises on a connection failure and on EVERY non-2xx status —
including 404, which the claim exempted. -/
theorem tmdb_from_tvdb_spec :
    (∀ tid net, tmdb_from_tvdb "" tid net = (.ok none, 0))
    ∧ (∀ key tid txt, key ≠ "" →
        tmdb_from_tvdb key tid
            (.ok ⟨200, txt, some (Json.obj [("tv_results", Json.arr [])])⟩)
          = (.ok none, 1))
    ∧ (∀ key tid txt fs, key ≠ "" → lookupKey fs "tv_results" = none →
        tmdb_from_tvdb key tid (.ok ⟨200, txt, some (Json.obj fs)⟩)
          = (.ok none, 1))
    ∧ (∀ key tid txt n rest, key ≠ "" →
        tmdb_from_tvdb key tid (.ok ⟨200, txt,
            some (Json.obj [("tv_results",
              Json.arr (Json.obj [("id", Json.int n)] :: rest))])⟩)
          = (.ok (some n), 1))
    ∧ (∀ key tid st txt j, key ≠ "" → is2xx st = false →
        tmdb_from_tvdb key tid (.ok ⟨st, txt, j⟩)
          = (.error (.exn ("HTTPStatusError " ++ toString st)), 1))
    ∧ (∀ key tid m, key ≠ "" →
        tmdb_from_tvdb key tid (.error m) = (.error (.exn m), 1))
    ∧ (∀ key tid net, key ≠ "" → (tmdb_from_tvdb key tid net).2 = 1) := by
  refine ⟨fun tid net => rfl, ?_, ?_, ?_, ?_, ?_, ?_⟩
  · intro key tid txt hk
    simp [tmdb_from_tvdb, hk, is2xx, Json.get, lookupKey, pyOrJson, Json.truthy]
  · intro key tid txt fs hk hl
    simp [tmdb_from_tvdb, hk, is2xx, Json.get, lookupKey, pyOrJson, Json.truthy, hl]
  · intro key tid txt n rest hk
    simp [tmdb_from_tvdb, hk, is2xx, Json.get, lookupKey, pyOrJson, Json.truthy, pyInt]
  · intro key tid st txt j hk hst
    simp [tmdb_from_tvdb, hk, hst]
  · intro key tid m hk
    simp [tmdb_from_tvdb, hk]
  · intro key tid net hk
    unfold tmdb_from_tvdb
    rw [if_neg hk]
    repeat' (first | split | (dsimp only []; split))
    all_goals rfl

/-- Witness for C4: the unconfigured case, a successful mapping, a 2xx
"no match", a raising 503, a raising connection failure, and the single-call
count. -/
theorem tmdb_from_tvdb_spec_witness :
    tmdb_from_tvdb "" 81189 (.error "never") = (.ok none, 0)
    ∧ tmdb_from_tvdb "k" 81189
        (.ok ⟨200, "x", some (Json.obj [("tv_results", Json.arr [])])⟩)
      = (.ok none, 1)
    ∧ tmdb_from_tvdb "k" 81189 (.ok ⟨200, "x", some (Json.obj [("tv_results",
          Json.arr (Json.obj [("id", Json.int 1396)] :: []))])⟩)
      = (.ok (some 1396), 1)
    ∧ tmdb_from_tvdb "k" 81189 (.ok ⟨503, "overloaded", none⟩)
      = (.error (.exn "HTTPStatusError 503"), 1)
    ∧ tmdb_from_tvdb "k" 81189 (.error "ConnectError")
      = (.error (.exn "ConnectError"), 1)
    ∧ (tmdb_from_tvdb "k" 81189
        (.ok ⟨200, "x", some (Json.obj [("tv_results", Json.arr [])])⟩)).2 = 1 :=
  ⟨tmdb_from_tvdb_spec.1 81189 (.error "never"),
   tmdb_from_tvdb_spec.2.1 "k" 81189 "x" (by decide),
   tmdb_from_tvdb_spec.2.2.2.1 "k" 81189 "x" 1396 [] (by decide),
   tmdb_from_tvdb_spec.2.2.2.2.1 "k" 81189 503 "overloaded" none
     (by decide) (by decide),
   tmdb_from_tvdb_spec.2.2.2.2.2.1 "k" 81189 "ConnectError" (by decide),
   tmdb_from_tvdb_spec.2.2.2.2.2.2 "k" 81189
     (.ok ⟨200, "x", some (Json.obj [("tv_results", Json.arr [])])⟩) (by decide)⟩

/-- Counterexample for C4 as stated: a 404 ("not found") response from the
metadata service makes the bridge raise, rather than return "no mapping" —
`raise_for_status` fires on every non-2xx status, 404 included. -/
theorem bridge_404_counterexample :
    tmdb_from_tvdb "k" 81189
        (.ok ⟨404, "not found", some (Json.obj [("tv_results", Json.arr [])])⟩)
      = (.error (.exn "HTTPStatusError 404"), 1) := rfl

/-- Claim C5 (confirmed): on the canonical request body, season configuration
"all" puts `seasons: "all"` on every tv request, "first" puts `seasons: [1]`,
any other configuration value yields no seasons field, and movie requests
never carry a seasons field. -/
theorem season_directive_mapping :
    (∀ id uid, Json.get (overseerr_payload "tv" id uid "all") "seasons"
        = Json.str "all")
    ∧ (∀ id uid, Json.get (overseerr_payload "tv" id uid "first") "seasons"
        = Json.arr [Json.int 1])
    ∧ (∀ id uid cfg, cfg ≠ "all" → cfg ≠ "first" →
        hasKey (overseerr_payload "tv" id uid cfg) "seasons" = false)
    ∧ (∀ id uid cfg, hasKey (overseerr_payload "movie" id uid cfg) "seasons"
        = false) := by
  refine ⟨fun id uid => rfl, fun id uid => rfl, ?_, fun id uid cfg => rfl⟩
  intro id uid cfg h1 h2
  simp [overseerr_payload, hasKey, lookupKey, h1, h2]

/-- Witness for C5: a configuration value other than "all"/"first" yields no
seasons field. -/
theorem season_directive_mapping_witness :
    hasKey (overseerr_payload "tv" 1396 7 "weekly") "seasons" = false :=
  season_directive_mapping.2.2.1 1396 7 "weekly" (by decide) (by decide)

/-- Claim C6 (confirmed): with dry-run enabled and the request service
configured, the forwarder performs zero network calls and returns a
dry-run-tagged echo of exactly the body it would have sent; for a movie
request with id 603 the echo carries mediaType "movie", mediaId 603, and the
configured user id. -/
theorem dry_run_echo :
    (∀ url key uid stv mt tid net, url ≠ "" → key ≠ "" →
        overseerr_request url key uid stv true mt tid net
          = (.ok (.obj [("dry_run", Json.bool true),
              ("would_request", overseerr_payload mt tid uid stv)]), 0))
    ∧ (∀ url key uid stv net, url ≠ "" → key ≠ "" →
        Json.get (Json.get (exOkJ (overseerr_request url key uid stv true
            "movie" 603 net).1) "would_request") "mediaType" = Json.str "movie"
        ∧ Json.get (Json.get (exOkJ (overseerr_request url key uid stv true
            "movie" 603 net).1) "would_request") "mediaId" = Json.int 603
        ∧ Json.get (Json.get (exOkJ (overseerr_request url key uid stv true
            "movie" 603 net).1) "would_request") "userId" = Json.int uid) := by
  have hmain : ∀ url key uid stv mt tid net, url ≠ "" → key ≠ "" →
      overseerr_request url key uid stv true mt tid net
        = (.ok (.obj [("dry_run", Json.bool true),
            ("would_request", overseerr_payload mt tid uid stv)]), 0) := by
    intro url key uid stv mt tid net hu hk
    unfold overseerr_request
    rw [if_neg (by simp [hu, hk]), if_pos rfl]
  refine ⟨hmain, ?_⟩
  intro url key uid stv net hu hk
  rw [hmain url key uid stv "movie" 603 net hu hk]
  refine ⟨rfl, rfl, rfl⟩

/-- Witness for C6: concrete configured dry run for movie id 603. -/
theorem dry_run_echo_witness :
    overseerr_request "http://o" "k" 7 "all" true "movie" 603 (.error "never")
      = (.ok (.obj [("dry_run", Json.bool true),
          ("would_request", Json.obj [("mediaType", Json.str "movie"),
            ("mediaId", Json.int 603), ("userId", Json.int 7)])]), 0)
    ∧ Json.get (Json.get (exOkJ (overseerr_request "http://o" "k" 7 "all" true
        "movie" 603 (.error "never")).1) "would_request") "mediaId"
      = Json.int 603 :=
  ⟨dry_run_echo.1 "http://o" "k" 7 "all" "movie" 603 (.error "never")
      (by decide) (by decide),
   (dry_run_echo.2 "http://o" "k" 7 "all" (.error "never")
      (by decide) (by decide)).2.1⟩

/-- Claim C7 (confirmed): a request passes the shared-secret gate iff no
secret is configured or the supplied value — the header when truthy,
otherwise the query parameter — equals the secret exactly; every rejection
is a 401. -/
theorem shared_secret_gate (secret : String) (hdr qp : Option String) :
    (require_api_key secret hdr qp = none
      ↔ (secret = "" ∨ (if strTruthy hdr then hdr else qp) = some secret))
    ∧ (require_api_key secret hdr qp = none
        ∨ require_api_key secret hdr qp = some 401) := by
  constructor
  · unfold require_api_key
    by_cases h1 : secret = "" <;>
      by_cases h2 : (if strTruthy hdr then hdr else qp) = some secret <;>
        simp [h1, h2]
  · by_cases hc : secret ≠ "" ∧ (if strTruthy hdr then hdr else qp) ≠ some secret
    · exact Or.inr (if_pos hc)
    · exact Or.inl (if_neg hc)

/-- Claim C10 (confirmed): a truthy header takes precedence — when a secret
is configured and a non-empty wrong header is supplied, the request is
rejected 401 whatever the query parameter holds (even the correct secret);
the query parameter is ignored entirely when the header is truthy; and an
absent header behaves exactly like an empty-string header. -/
theorem header_precedence (secret v : String) (qp : Option String)
    (hs : secret ≠ "") (hv : v ≠ "") (hne : v ≠ secret) :
    require_api_key secret (some v) qp = some 401
    ∧ require_api_key secret (some v) qp = require_api_key secret (some v) none
    ∧ require_api_key secret none qp = require_api_key secret (some "") qp := by
  refine ⟨?_, ?_, rfl⟩
  · simp [require_api_key, strTruthy, hs, hv, hne]
  · simp [require_api_key, strTruthy, hv]

/-- Witness for C10: with secret "s", a wrong header "w" is rejected even
though the query parameter carries the correct secret. -/
theorem header_precedence_witness :
    require_api_key "s" (some "w") (some "s") = some 401 :=
  (header_precedence "s" "w" (some "s") (by decide) (by decide) (by decide)).1

/-- Claim C8 (amended): the status table holds with one narrowing — 200 for
successful responses including batch imports with per-item failures; 400 for
a missing identifier on a single-item add and for a missing metadata
credential on a lookup; 401 for a bad configured secret; 500 when the
request service is unconfigured; 502 when it answers non-2xx; but 404 only
for the mode-gated import/add endpoints — a lookup endpoint invoked in the
other impersonation mode returns 200 with an empty list, not 404. -/
theorem status_code_table :
    (∀ key uid stv dr mt tid net, (overseerr_request "" key uid stv dr mt tid net).1
        = .error (.http 500 "Overseerr not configured (OVERSEERR_URL/OVERSEERR_API_KEY)"))
    ∧ (∀ url uid stv dr mt tid net, (overseerr_request url "" uid stv dr mt tid net).1
        = .error (.http 500 "Overseerr not configured (OVERSEERR_URL/OVERSEERR_API_KEY)"))
    ∧ (∀ uid stv mt tid, (overseerr_request "http://o" "k" uid stv false mt tid
          (.ok ⟨500, "boom", none⟩)).1
        = .error (.http 502 "Overseerr error 500: boom"))
    ∧ (∀ uid stv mt tid j, (overseerr_request "http://o" "k" uid stv false mt tid
          (.ok ⟨201, "x", some j⟩)).1 = .ok j)
    ∧ (∀ forward now nowStr, add_movie "radarr" forward now nowStr
          (Json.obj [("title", Json.str "T")])
        = .error (.http 400 "Missing tmdbId in Radarr add payload"))
    ∧ (∀ net, movie_lookup "radarr" "" "tmdb:603" net
        = .error (.http 400 "TMDB_API_KEY is required for /movie/lookup"))
    ∧ require_api_key "s" (some "w") none = some 401
    ∧ (∀ forward body, movie_import "sonarr" forward body
        = .error (.http 404 "Not in radarr mode"))
    ∧ (∀ bridge forward body, series_import "radarr" bridge forward body
        = .error (.http 404 "Not in sonarr mode"))
    ∧ (∀ forward now nowStr body, add_movie "sonarr" forward now nowStr body
        = .error (.http 404 "Not in radarr mode"))
    ∧ (∀ key term net, movie_lookup "sonarr" key term net = .ok (.arr []))
    ∧ (∀ forward, summary_okB (movie_import "radarr" forward
          (Json.arr [Json.obj [("tmdbId", Json.int 1)], Json.obj []])) 2 = true) := by
  refine ⟨?_, ?_, fun uid stv mt tid => rfl, fun uid stv mt tid j => rfl,
    fun forward now nowStr => rfl, fun net => rfl, rfl,
    fun forward body => rfl, fun bridge forward body => rfl,
    fun forward now nowStr body => rfl, fun key term net => rfl, ?_⟩
  · intro key uid stv dr mt tid net
    simp [overseerr_request]
  · intro url uid stv dr mt tid net
    simp [overseerr_request]
  · intro forward
    exact movie_import_ok forward
      (Json.arr [Json.obj [("tmdbId", Json.int 1)], Json.obj []]) (by decide)

/-- Counterexample for C8 as stated: the movie-lookup endpoint invoked while
the shim runs in sonarr mode answers 200 with an empty list, not 404. -/
theorem wrong_mode_lookup_counterexample :
    movie_lookup "sonarr" "k" "tmdb:603" (.ok ⟨200, "x", some (Json.obj [])⟩)
      = .ok (.arr []) := rfl

theorem lookup_insertKey_same (a : List (String × Json)) (k : String) (v : Json) :
    lookupKey (insertKey a k v) k = some v := by
  induction a with
  | nil => simp [insertKey, lookupKey]
  | cons p rest ih =>
    by_cases h : p.1 = k
    · simp [insertKey, lookupKey, h]
    · simp [insertKey, lookupKey, h, ih]

theorem lookup_insertKey_other (a : List (String × Json)) (k k' : String)
    (v : Json) (h : k' ≠ k) :
    lookupKey (insertKey a k v) k' = lookupKey a k' := by
  induction a with
  | nil => simp [insertKey, lookupKey, Ne.symm h]
  | cons p rest ih =>
    by_cases hp : p.1 = k
    · subst hp
      simp [insertKey, lookupKey, Ne.symm h]
    · simp [insertKey, lookupKey, hp, ih]

theorem lookup_none_of_not_mem (b : List (String × Json)) (k : String)
    (h : k ∉ b.map Prod.fst) : lookupKey b k = none := by
  induction b with
  | nil => rfl
  | cons p rest ih =>
    simp only [List.map_cons, List.mem_cons] at h
    push_neg at h
    simp [lookupKey, Ne.symm h.1, ih h.2]

theorem lookup_dictMerge (a b : List (String × Json))
    (hb : (b.map Prod.fst).Nodup) (k : String) :
    lookupKey (dictMerge a b) k
      = match lookupKey b k with
        | some v => some v
        | none => lookupKey a k := by
  induction b generalizing a with
  | nil => simp [dictMerge, lookupKey]
  | cons p rest ih =>
    rw [List.map_cons, List.nodup_cons] at hb
    have step : dictMerge a (p :: rest) = dictMerge (insertKey a p.1 p.2) rest := by
      simp [dictMerge]
    rw [step, ih _ hb.2]
    by_cases h : p.1 = k
    · subst h
      rw [lookup_none_of_not_mem rest p.1 hb.1, lookup_insertKey_same]
      simp [lookupKey]
    · rw [lookup_insertKey_other _ _ _ _ (Ne.symm h)]
      simp only [lookupKey, h, if_false]

/-- Claim C9 (amended): the exclusion-create endpoints echo the submitted
body merged with the time-derived id (the body's own entries overriding the
generated id on a key clash), but the tag-create endpoint does not echo the
body at all: it returns the constant id 1 together with only the submitted
label (default "kometa"), dropping every other field. -/
theorem create_endpoints_spec (now : Int) (fs : List (String × Json))
    (k : String) (hnd : (fs.map Prod.fst).Nodup) :
    (∀ v, lookupKey fs k = some v →
        Json.get (exOkJ (add_exclusion now (.obj fs))) k = v)
    ∧ (lookupKey fs "id" = none →
        Json.get (exOkJ (add_exclusion now (.obj fs))) "id" = Json.int now)
    ∧ (∀ v, lookupKey fs k = some v →
        Json.get (exOkJ (add_import_list_exclusion now (.obj fs))) k = v)
    ∧ (lookupKey fs "id" = none →
        Json.get (exOkJ (add_import_list_exclusion now (.obj fs))) "id"
          = Json.int now)
    ∧ Json.get (exOkJ (create_tag (.obj fs))) "id" = Json.int 1
    ∧ (k ≠ "id" → k ≠ "label" →
        Json.get (exOkJ (create_tag (.obj fs))) k = Json.null) := by
  have hmerge := lookup_dictMerge [("id", Json.int now)] fs hnd
  refine ⟨?_, ?_, ?_, ?_, ?_, ?_⟩
  · intro v hv
    show (lookupKey (dictMerge [("id", Json.int now)] fs) k).getD Json.null = v
    rw [hmerge k, hv]
    rfl
  · intro hid
    show (lookupKey (dictMerge [("id", Json.int now)] fs) "id").getD Json.null
      = Json.int now
    rw [hmerge "id", hid]
    rfl
  · intro v hv
    show (lookupKey (dictMerge [("id", Json.int now)] fs) k).getD Json.null = v
    rw [hmerge k, hv]
    rfl
  · intro hid
    show (lookupKey (dictMerge [("id", Json.int now)] fs) "id").getD Json.null
      = Json.int now
    rw [hmerge "id", hid]
    rfl
  · rfl
  · intro h1 h2
    show (lookupKey [("id", Json.int 1),
        ("label", (lookupKey fs "label").getD (.str "kometa"))] k).getD Json.null
      = Json.null
    simp [lookupKey, Ne.symm h1, Ne.symm h2]

/-- Witness for C9: a concrete exclusion body is echoed with the generated
id, while the tag endpoint keeps only id 1 and the label. -/
theorem create_endpoints_spec_witness :
    Json.get (exOkJ (add_exclusion 1700000000
        (Json.obj [("label", Json.str "x"), ("color", Json.str "red")]))) "color"
      = Json.str "red"
    ∧ Json.get (exOkJ (add_exclusion 1700000000
        (Json.obj [("label", Json.str "x"), ("color", Json.str "red")]))) "id"
      = Json.int 1700000000
    ∧ Json.get (exOkJ (add_import_list_exclusion 1700000000
        (Json.obj [("label", Json.str "x"), ("color", Json.str "red")]))) "id"
      = Json.int 1700000000
    ∧ Json.get (exOkJ (create_tag
        (Json.obj [("label", Json.str "x"), ("color", Json.str "red")]))) "id"
      = Json.int 1
    ∧ Json.get (exOkJ (create_tag
        (Json.obj [("label", Json.str "x"), ("color", Json.str "red")]))) "color"
      = Json.null :=
  ⟨(create_endpoints_spec 1700000000 [("label", Json.str "x"),
      ("color", Json.str "red")] "color" (by decide)).1 (Json.str "red") rfl,
   (create_endpoints_spec 1700000000 [("label", Json.str "x"),
      ("color", Json.str "red")] "color" (by decide)).2.1 rfl,
   (create_endpoints_spec 1700000000 [("label", Json.str "x"),
      ("color", Json.str "red")] "color" (by decide)).2.2.2.1 rfl,
   (create_endpoints_spec 1700000000 [("label", Json.str "x"),
      ("color", Json.str "red")] "color" (by decide)).2.2.2.2.1,
   (create_endpoints_spec 1700000000 [("label", Json.str "x"),
      ("color", Json.str "red")] "color" (by decide)).2.2.2.2.2
     (by decide) (by decide)⟩

/-- Counterexample for C9 as stated: the tag-create endpoint neither echoes
the submitted body (the "color" field is dropped) nor derives its id from
the current time (the result is the constant `{"id": 1, "label": <label>}`,
and `create_tag` does not even consume a time value). -/
theorem create_tag_counterexample :
    create_tag (Json.obj [("label", Json.str "x"), ("color", Json.str "red")])
      = .ok (Json.obj [("id", Json.int 1), ("label", Json.str "x")])
    ∧ Json.get (exOkJ (create_tag
        (Json.obj [("label", Json.str "x"), ("color", Json.str "red")]))) "color"
      = Json.null := ⟨rfl, rfl⟩
